import Mathlib

/-!
# Verification of the LangGraph Marketing Agent workflow

Shallow embedding of the workflow core of `src/main.py` (CLI agent) and
`src/backend/main.py` (FastAPI backend) of cmatiass/LangGraph-Marketing-Agent,
together with proofs about the routing predicate, the critique parser, the
human-approval protocol and the task API.

Python strings are modelled as lists of Unicode code points (`List Nat`),
which matches Python's code-point-indexed string semantics.  Calls to the
language model (`model.invoke`) are external collaborators; every node that
consumes such a reply takes the reply text as an explicit parameter.
-/

/-- A Python string: the sequence of its Unicode code points. -/
abbrev PyStr := List Nat

/-- Code points of a Lean string literal, used to transcribe the Python
string literals of the source. -/
def strN (s : String) : PyStr := s.data.map Char.toNat

/-- Model of `str.lower` on one code point (ASCII range; the uppercase ASCII
letters A–Z are code points 65–90 and map to 97–122).  Python additionally
lowercases non-ASCII letters, which likewise never produce an uppercase
ASCII letter, so the property proved below (`pyLower_ne_upperN`) also holds
for full Unicode lowercasing. -/
def pyLower (c : Nat) : Nat := if 65 ≤ c ∧ c ≤ 90 then c + 32 else c

/-- Model of `str.isspace` for the ASCII whitespace characters recognised by
`str.strip()`: space, tab, newline, carriage return, vertical tab, form feed. -/
def isSpaceN (c : Nat) : Bool := c == 32 || c == 9 || c == 10 || c == 13 || c == 11 || c == 12

/-- Model of `str.strip()`: drop whitespace from both ends. -/
def pyStrip (l : PyStr) : PyStr := ((l.dropWhile isSpaceN).reverse.dropWhile isSpaceN).reverse

/-- Model of `str.startswith`: `startsWith pat s` is true iff `pat` is an
initial segment of `s`. -/
def startsWith : PyStr → PyStr → Bool
  | [], _ => true
  | _ :: _, [] => false
  | a :: as, b :: bs => a == b && startsWith as bs

/-- Model of the Python substring test `needle in haystack`. -/
def hasSub (needle : PyStr) : PyStr → Bool
  | [] => needle.isEmpty
  | b :: bs => startsWith needle (b :: bs) || hasSub needle bs

/-- The critic's sentinel reply, from the prompt in `critic_node`:
`"No critiques - the post is ready."`. -/
def noCritiquesSentinel : PyStr := strN "No critiques - the post is ready."

/-- The bullet markers recognised by the critique parser:
`['1.', '2.', '3.', '•', '-', '*']`. -/
def critiqueMarkers : List PyStr :=
  [strN "1.", strN "2.", strN "3.", strN "•", strN "-", strN "*"]

/-- `any(line.startswith(prefix) for prefix in [...])` from `critic_node`. -/
def startsWithAnyMarker (line : PyStr) : Bool :=
  critiqueMarkers.any (fun p => startsWith p line)

/-- The critique-parsing step of `critic_node` (`src/main.py` lines 300–324,
identical in `src/backend/main.py` lines 235–248), as a function of the raw
critic reply `response.content`:

```python
critique_response = response.content.strip()
if "No critiques - the post is ready." in critique_response.lower():
    critiques = []
else:
    critique_lines = [line.strip() for line in critique_response.split('\n') if line.strip()]
    critiques = []
    for line in critique_lines:
        if any(line.startswith(prefix) for prefix in ['1.', '2.', '3.', '•', '-', '*']):
            critiques.append(line)
    if not critiques and critique_response:
        critiques = [critique_response]
```
-/
def critic_parse (raw : PyStr) : List PyStr :=
  let critique_response := pyStrip raw
  if hasSub noCritiquesSentinel (critique_response.map pyLower) then []
  else
    let critique_lines := ((critique_response.splitOn 10).map pyStrip).filter (fun l => !l.isEmpty)
    let critiques := critique_lines.filter startsWithAnyMarker
    if critiques.isEmpty && !critique_response.isEmpty then [critique_response] else critiques

-- sanity checks of the parser model on concrete replies
example : critic_parse (strN "") = [] := by decide
example : critic_parse (strN "No critiques - the post is ready.") =
    [strN "No critiques - the post is ready."] := by decide
example : critic_parse (strN "1. Add a hook.") = [strN "1. Add a hook."] := by decide
example : critic_parse (strN "Too long.") = [strN "Too long."] := by decide

/-- Lowercasing never produces the code point of `'N'` (78): uppercase ASCII
letters are shifted into 97–122 and every other code point is fixed (and is
not 78, since 78 is an uppercase ASCII letter). -/
theorem pyLower_ne_upperN (c : Nat) : pyLower c ≠ 78 := by
  unfold pyLower
  split <;> omega

theorem startsWith_mem {p s : PyStr} (h : startsWith p s = true) : ∀ x ∈ p, x ∈ s := by
  induction p generalizing s with
  | nil => intro x hx; cases hx
  | cons a as ih =>
    cases s with
    | nil => simp [startsWith] at h
    | cons b bs =>
      simp only [startsWith, Bool.and_eq_true, beq_iff_eq] at h
      intro x hx
      rcases List.mem_cons.mp hx with rfl | hx
      · rw [h.1]; exact List.mem_cons_self b bs
      · exact List.mem_cons_of_mem b (ih h.2 x hx)

theorem hasSub_mem {n h : PyStr} (hh : hasSub n h = true) : ∀ x ∈ n, x ∈ h := by
  induction h with
  | nil =>
    simp only [hasSub, List.isEmpty_iff] at hh
    subst hh; intro x hx; cases hx
  | cons b bs ih =>
    simp only [hasSub, Bool.or_eq_true] at hh
    rcases hh with hh | hh
    · exact startsWith_mem hh
    · intro x hx; exact List.mem_cons_of_mem b (ih hh x hx)

/-- The sentinel comparison in `critic_node` can never succeed: the needle
contains the capital `'N'` (code point 78), but the haystack has been
lowercased. -/
theorem sentinel_never_matches (l : PyStr) :
    hasSub noCritiquesSentinel (l.map pyLower) = false := by
  by_contra hne
  have h : hasSub noCritiquesSentinel (l.map pyLower) = true := by
    cases hv : hasSub noCritiquesSentinel (l.map pyLower)
    · exact absurd hv hne
    · rfl
  have h78 : (78 : Nat) ∈ noCritiquesSentinel := by decide
  have hmem := hasSub_mem h 78 h78
  rcases List.mem_map.mp hmem with ⟨c, _, hc⟩
  exact pyLower_ne_upperN c hc

/-- Core nonemptiness property of the parser: a reply that is non-empty after
stripping always yields at least one critique. -/
theorem critic_parse_ne_nil {raw : PyStr} (h : pyStrip raw ≠ []) : critic_parse raw ≠ [] := by
  unfold critic_parse
  simp only [sentinel_never_matches, Bool.false_eq_true, if_false]
  split
  · simp
  · next hc =>
    intro hE
    apply hc
    rw [hE]
    simp only [List.isEmpty_nil, Bool.true_and, Bool.not_eq_true', Bool.not_eq_false]
    cases hv : (pyStrip raw).isEmpty
    · rfl
    · exact absurd (List.isEmpty_iff.mp hv) h

/-- C10: for every critic reply whose stripped text is non-empty the parsed
critique list is non-empty; the sentinel check (capitalised needle against a
lowercased haystack) never fires, so even the exact sentinel reply becomes a
single critique carrying the sentinel text; the critique list is empty only
for replies that strip to the empty string. -/
theorem c10_critic_parse_nonempty :
    (∀ raw : PyStr, pyStrip raw ≠ [] → critic_parse raw ≠ []) ∧
    critic_parse noCritiquesSentinel = [noCritiquesSentinel] ∧
    (∀ raw : PyStr, critic_parse raw = [] → pyStrip raw = []) := by
  refine ⟨fun raw h => critic_parse_ne_nil h, by decide, fun raw h => ?_⟩
  by_contra hne
  exact critic_parse_ne_nil hne h

/-- Witness for C10 at the concrete reply `"Too long."`. -/
theorem c10_witness : critic_parse (strN "Too long.") ≠ [] :=
  c10_critic_parse_nonempty.1 (strN "Too long.") (by decide)

/-! ## WorkflowState and the graph nodes (`src/main.py`, `src/backend/main.py`) -/

/-- `AgentState` (TypedDict of both source files).  `research_findings` is
kept abstractly as the list of mock key points; the chat-history field
`messages` is omitted (never read by any node or router).  `max_iterations`
is an `Int` because the backend accepts any Python int for it. -/
structure AgentState where
  initial_request : PyStr
  research_findings : List PyStr
  draft_post : PyStr
  critiques : List PyStr
  iteration_count : Nat
  max_iterations : Int
  human_approved : Bool
  approval_attempts : Nat
deriving DecidableEq

/-- The `key_points` of the mock research data produced by `research_node`. -/
def mock_key_points : List PyStr :=
  [strN "Current market trends show high engagement with authentic content",
   strN "Target audience prefers concise, value-driven messaging",
   strN "Visual elements increase engagement by 40%",
   strN "Best posting times are typically 9-11 AM and 2-4 PM"]

/-- `research_node`: writes the (mock) research findings, touching nothing
else. -/
def research_node (s : AgentState) : AgentState :=
  { s with research_findings := mock_key_points }

/-- `copywriting_node`: the language-model reply is the parameter `draft`;
the node stores it and increments `iteration_count`. -/
def copywriting_node (draft : PyStr) (s : AgentState) : AgentState :=
  { s with draft_post := draft, iteration_count := s.iteration_count + 1 }

/-- The feedback entries the copywriting prompt actually consumes: at
`iteration_count == 0` the node builds the initial-creation prompt, which
does not mention `critiques` at all; otherwise the refinement prompt lists
every entry of `critiques` (`src/main.py` lines 140–211). -/
def copywriting_prompt_feedback (s : AgentState) : List PyStr :=
  if s.iteration_count = 0 then [] else s.critiques

/-- `critic_node`: the language-model reply is the parameter `resp`; the
node stores the parsed critiques, touching nothing else. -/
def critic_node (resp : PyStr) (s : AgentState) : AgentState :=
  { s with critiques := critic_parse resp }

/-- Routing targets of the conditional edges. -/
inductive Route | human_approval | copywriting | END
deriving DecidableEq

/-- `should_continue` (`src/main.py` lines 425–465, identical logic in
`src/backend/main.py` lines 262–287): the conditional edge after
`critic_node`.

```python
if human_approved:                                  return "END"
if not critiques and iteration_count > 0:           return "human_approval"
elif critiques and iteration_count < max_iterations: return "copywriting"
elif iteration_count >= max_iterations:             return "human_approval"
else:                                               return "human_approval"
```
-/
def should_continue (s : AgentState) : Route :=
  if s.human_approved then .END
  else if s.critiques = [] ∧ 0 < s.iteration_count then .human_approval
  else if s.critiques ≠ [] ∧ (s.iteration_count : Int) < s.max_iterations then .copywriting
  else if s.max_iterations ≤ (s.iteration_count : Int) then .human_approval
  else .human_approval

/-- The conditional edge after `human_approval` (the lambda in
`create_marketing_agent`): `"END" if state.get("human_approved") else
"copywriting"`. -/
def human_approval_route (s : AgentState) : Route :=
  if s.human_approved then .END else .copywriting

/-- The three human verdicts at the approval gate. -/
inductive Verdict
  | approve
  | reject
  | feedback (text : PyStr)

/-- One pass of the interactive loop of `human_approval_node`
(`src/main.py` lines 362–403) for a valid verdict: `approve` ("y") sets
`human_approved` and bumps `approval_attempts`; `reject` ("n") additionally
replaces `critiques` with the generic entry and resets `iteration_count`;
`feedback` with text that is non-empty after stripping records the entry
`"Human feedback: <text>"`; empty feedback text re-prompts (`none`: no state
change). -/
def human_approval_step (v : Verdict) (s : AgentState) : Option AgentState :=
  match v with
  | .approve =>
      some { s with human_approved := true,
                    approval_attempts := s.approval_attempts + 1 }
  | .reject =>
      some { s with human_approved := false,
                    approval_attempts := s.approval_attempts + 1,
                    critiques := [strN "Human reviewer requested improvements to the overall post quality and effectiveness."],
                    iteration_count := 0 }
  | .feedback text =>
      if (pyStrip text).isEmpty then none
      else
        some { s with human_approved := false,
                      approval_attempts := s.approval_attempts + 1,
                      critiques := [strN "Human feedback: " ++ pyStrip text],
                      iteration_count := 0 }

/-- C7: `should_continue` is exactly the five-rule priority list of the
spec: the first applicable rule among (1) approved → END, (2) feedback
empty and iteration > 0 → approval gate, (3) feedback non-empty and
iteration < maxIterations → copywriting, (4) iteration ≥ maxIterations →
approval gate, (5) fallback → approval gate decides the result; routing is
a pure function of the state by construction. -/
theorem c7_should_continue_priority (s : AgentState) :
    (s.human_approved = true → should_continue s = .END) ∧
    (s.human_approved = false → s.critiques = [] → 0 < s.iteration_count →
      should_continue s = .human_approval) ∧
    (s.human_approved = false → ¬(s.critiques = [] ∧ 0 < s.iteration_count) →
      s.critiques ≠ [] → (s.iteration_count : Int) < s.max_iterations →
      should_continue s = .copywriting) ∧
    (s.human_approved = false → ¬(s.critiques = [] ∧ 0 < s.iteration_count) →
      ¬(s.critiques ≠ [] ∧ (s.iteration_count : Int) < s.max_iterations) →
      s.max_iterations ≤ (s.iteration_count : Int) →
      should_continue s = .human_approval) ∧
    (s.human_approved = false → ¬(s.critiques = [] ∧ 0 < s.iteration_count) →
      ¬(s.critiques ≠ [] ∧ (s.iteration_count : Int) < s.max_iterations) →
      ¬(s.max_iterations ≤ (s.iteration_count : Int)) →
      should_continue s = .human_approval) := by
  unfold should_continue
  refine ⟨fun h1 => ?_, fun h1 h2 h3 => ?_, fun h1 h2 h3 h4 => ?_,
          fun h1 h2 h3 h4 => ?_, fun h1 h2 h3 h4 => ?_⟩ <;>
    split_ifs <;> simp_all

/-- A state in which the human has approved (for the C7 witness). -/
def approvedState : AgentState :=
  { initial_request := strN "t", research_findings := mock_key_points,
    draft_post := strN "d", critiques := [], iteration_count := 1,
    max_iterations := 3, human_approved := true, approval_attempts := 1 }

/-- Witness for C7: rule 1 fires on a concrete approved state. -/
theorem c7_witness : should_continue approvedState = .END :=
  (c7_should_continue_priority approvedState).1 rfl

/-! ## The compiled graph as a transition system (`create_marketing_agent`) -/

/-- The nodes of the compiled `StateGraph`, plus the terminal `END`. -/
inductive Node | research | copywriting | critic | human_approval | terminal
deriving DecidableEq

/-- Mapping of routing results to graph nodes. -/
def nodeOfRoute : Route → Node
  | .human_approval => .human_approval
  | .copywriting => .copywriting
  | .END => .terminal

/-- A point of the execution: the node about to run (or `terminal`) and the
current state. -/
structure Config where
  node : Node
  state : AgentState
deriving DecidableEq

/-- One step of the graph executor.  Language-model replies (`draft`,
`resp`) and the human verdict are free parameters: the step relation is
nondeterministic in the external collaborators.  The edges are those added
in `create_marketing_agent`: `research → copywriting → critic`, the
conditional edge `should_continue` after `critic`, and the conditional edge
`human_approval_route` after `human_approval`. -/
inductive Step : Config → Config → Prop
  | research (s : AgentState) :
      Step ⟨.research, s⟩ ⟨.copywriting, research_node s⟩
  | copywriting (draft : PyStr) (s : AgentState) :
      Step ⟨.copywriting, s⟩ ⟨.critic, copywriting_node draft s⟩
  | critic (resp : PyStr) (s : AgentState) :
      Step ⟨.critic, s⟩
        ⟨nodeOfRoute (should_continue (critic_node resp s)), critic_node resp s⟩
  | gate (v : Verdict) (s s2 : AgentState) (h : human_approval_step v s = some s2) :
      Step ⟨.human_approval, s⟩ ⟨nodeOfRoute (human_approval_route s2), s2⟩

/-- Configurations reachable from a start configuration. -/
abbrev Reachable : Config → Config → Prop := Relation.ReflTransGen Step

/-- The initial state of `run_marketing_agent` / `run_marketing_agent_async`:
zeroed counters, empty draft and critiques, `human_approved = False`. -/
def initial_state (request : PyStr) (max_iterations : Int) : AgentState :=
  { initial_request := request, research_findings := [], draft_post := [],
    critiques := [], iteration_count := 0, max_iterations := max_iterations,
    human_approved := false, approval_attempts := 0 }

/-- If `should_continue` routes back to copywriting then rule 3 fired:
critiques are outstanding and the iteration bound is not yet reached. -/
theorem should_continue_eq_copywriting {s : AgentState}
    (h : should_continue s = .copywriting) :
    s.critiques ≠ [] ∧ (s.iteration_count : Int) < s.max_iterations := by
  unfold should_continue at h
  split_ifs at h with h1 h2 h3 h4
  simp_all

/-- The inductive invariant carried around the graph: the iteration bound is
immutable, the counter is `0` before the first draft, strictly below the
bound whenever `copywriting` is about to run, and in `1..max_iterations`
whenever `critic` or `human_approval` is about to run. -/
def GraphInv (M : Int) (c : Config) : Prop :=
  c.state.max_iterations = M ∧
  (c.node = .research → c.state.iteration_count = 0) ∧
  (c.node = .copywriting → (c.state.iteration_count : Int) < M) ∧
  ((c.node = .critic ∨ c.node = .human_approval) →
    1 ≤ c.state.iteration_count ∧ (c.state.iteration_count : Int) ≤ M)

theorem graphInv_step {M : Int} (hM : 1 ≤ M) {c c2 : Config}
    (hc : GraphInv M c) (h : Step c c2) : GraphInv M c2 := by
  obtain ⟨hmax, hres, hcopy, hgate⟩ := hc
  cases h with
  | research s =>
      dsimp only at hmax hres
      have h0 : s.iteration_count = 0 := hres rfl
      refine ⟨hmax, by simp, fun _ => ?_, by simp⟩
      simp only [research_node] at *
      omega
  | copywriting draft s =>
      dsimp only at hmax hcopy
      have hlt : (s.iteration_count : Int) < M := hcopy rfl
      refine ⟨hmax, by simp, by simp, fun _ => ?_⟩
      simp only [copywriting_node]
      constructor
      · omega
      · push_cast
        omega
  | critic resp s =>
      dsimp only at hmax hgate
      have hit : 1 ≤ s.iteration_count ∧ (s.iteration_count : Int) ≤ M :=
        hgate (Or.inl rfl)
      rcases hr : should_continue (critic_node resp s) with hv | hv | hv
      · -- human_approval
        exact ⟨hmax, by simp [nodeOfRoute], by simp [nodeOfRoute],
               fun _ => by simpa [critic_node] using hit⟩
      · -- copywriting
        have h3 := should_continue_eq_copywriting hr
        refine ⟨hmax, by simp [nodeOfRoute], fun _ => ?_, by simp [nodeOfRoute]⟩
        have := h3.2
        simp only [critic_node] at this ⊢
        omega
      · -- END
        exact ⟨hmax, by simp [nodeOfRoute], by simp [nodeOfRoute],
               by simp [nodeOfRoute]⟩
  | gate v s s2 hv =>
      dsimp only at hmax
      have hmax2 : s2.max_iterations = s.max_iterations := by
        cases v with
        | approve => cases hv; rfl
        | reject => cases hv; rfl
        | feedback text =>
            simp only [human_approval_step] at hv
            split at hv
            · cases hv
            · cases hv; rfl
      rcases ha : s2.human_approved with hb | hb
      · -- not approved: routed back to copywriting with iteration reset to 0
        have hit0 : s2.iteration_count = 0 := by
          cases v with
          | approve => cases hv; simp_all
          | reject => cases hv; rfl
          | feedback text =>
              simp only [human_approval_step] at hv
              split at hv
              · cases hv
              · cases hv; rfl
        refine ⟨hmax2.trans hmax, ?_, fun _ => ?_, ?_⟩
        · simp [human_approval_route, ha, nodeOfRoute]
        · dsimp only
          rw [hit0]
          exact_mod_cast hM
        · simp [human_approval_route, ha, nodeOfRoute]
      · -- approved: terminal
        refine ⟨hmax2.trans hmax, ?_, ?_, ?_⟩ <;>
          simp [human_approval_route, ha, nodeOfRoute]

/-- Every reachable configuration of a run started with `maxIterations = M ≥ 1`
satisfies the graph invariant. -/
theorem reachable_graphInv {req : PyStr} {M : Int} (hM : 1 ≤ M) {c : Config}
    (h : Reachable ⟨.research, initial_state req M⟩ c) : GraphInv M c := by
  induction h with
  | refl =>
      exact ⟨rfl, fun _ => rfl, by simp, by simp⟩
  | tail _ hstep ih => exact graphInv_step hM ih hstep

/-- C8: in every run started with `maxIterations ≥ 1`, every entry into the
approval gate (`AwaitingApproval`) has `0 < iteration ≤ maxIterations`. -/
theorem c8_gate_iteration_bounds (req : PyStr) (M : Int) (hM : 1 ≤ M) (c : Config)
    (h : Reachable ⟨.research, initial_state req M⟩ c)
    (hn : c.node = .human_approval) :
    0 < c.state.iteration_count ∧
      (c.state.iteration_count : Int) ≤ c.state.max_iterations := by
  obtain ⟨hmax, -, -, hgate⟩ := reachable_graphInv hM h
  have hit := hgate (Or.inr hn)
  exact ⟨hit.1, by rw [hmax]; exact hit.2⟩

/-- C9: whenever the router runs after a critique step of a reachable
execution, one of rules 1–4 already applies (so the rule-5 fallback never
decides the route). -/
theorem c9_fallback_unreachable (req : PyStr) (M : Int) (hM : 1 ≤ M) (c : Config)
    (h : Reachable ⟨.research, initial_state req M⟩ c)
    (hn : c.node = .critic) (resp : PyStr) :
    (critic_node resp c.state).human_approved = true ∨
    ((critic_node resp c.state).critiques = [] ∧
      0 < (critic_node resp c.state).iteration_count) ∨
    ((critic_node resp c.state).critiques ≠ [] ∧
      ((critic_node resp c.state).iteration_count : Int) <
        (critic_node resp c.state).max_iterations) ∨
    (critic_node resp c.state).max_iterations ≤
      ((critic_node resp c.state).iteration_count : Int) := by
  obtain ⟨hmax, -, -, hgate⟩ := reachable_graphInv hM h
  have hit := hgate (Or.inl hn)
  simp only [critic_node]
  by_cases hcr : critic_parse resp = []
  · exact Or.inr (Or.inl ⟨hcr, hit.1⟩)
  · rcases Int.lt_or_le (c.state.iteration_count : Int) c.state.max_iterations with hlt | hle
    · exact Or.inr (Or.inr (Or.inl ⟨hcr, hlt⟩))
    · exact Or.inr (Or.inr (Or.inr hle))

/-! ### A concrete execution used for witnesses and the C4 counterexample -/

/-- Start of the witness run: topic `"t"`, `maxIterations = 1`. -/
def sW0 : AgentState := initial_state (strN "t") 1

def sW1 : AgentState := research_node sW0

/-- After the first draft (`iteration_count = 1`). -/
def sW2 : AgentState := copywriting_node (strN "d") sW1

/-- After a critic reply that strips to the empty string: no critiques. -/
def sW3 : AgentState := critic_node (strN "") sW2

/-- The approval-gate entry of the witness run. -/
def cfgW : Config := ⟨.human_approval, sW3⟩

theorem reach_sW2 :
    Reachable ⟨Node.research, initial_state (strN "t") 1⟩ ⟨Node.critic, sW2⟩ := by
  have h1 : Step ⟨Node.research, sW0⟩ ⟨Node.copywriting, sW1⟩ := Step.research sW0
  have h2 : Step ⟨Node.copywriting, sW1⟩ ⟨Node.critic, sW2⟩ :=
    Step.copywriting (strN "d") sW1
  exact Relation.ReflTransGen.tail (Relation.ReflTransGen.tail .refl h1) h2

theorem reach_cfgW : Reachable ⟨Node.research, initial_state (strN "t") 1⟩ cfgW := by
  have he : (⟨nodeOfRoute (should_continue (critic_node (strN "") sW2)),
              critic_node (strN "") sW2⟩ : Config) = cfgW := by decide
  exact Relation.ReflTransGen.tail reach_sW2 (he ▸ Step.critic (strN "") sW2)

/-- Witness for C8: the concrete gate entry `cfgW` (iteration 1, bound 1). -/
theorem c8_witness :
    0 < cfgW.state.iteration_count ∧
      (cfgW.state.iteration_count : Int) ≤ cfgW.state.max_iterations :=
  c8_gate_iteration_bounds (strN "t") 1 (by norm_num) cfgW reach_cfgW rfl

/-- Witness for C9: the concrete routing point after `sW2` with the critic
reply `"1. x"`. -/
theorem c9_witness :
    (critic_node (strN "1. x") (⟨Node.critic, sW2⟩ : Config).state).human_approved = true ∨
    ((critic_node (strN "1. x") (⟨Node.critic, sW2⟩ : Config).state).critiques = [] ∧
      0 < (critic_node (strN "1. x") (⟨Node.critic, sW2⟩ : Config).state).iteration_count) ∨
    ((critic_node (strN "1. x") (⟨Node.critic, sW2⟩ : Config).state).critiques ≠ [] ∧
      ((critic_node (strN "1. x") (⟨Node.critic, sW2⟩ : Config).state).iteration_count : Int) <
        (critic_node (strN "1. x") (⟨Node.critic, sW2⟩ : Config).state).max_iterations) ∨
    (critic_node (strN "1. x") (⟨Node.critic, sW2⟩ : Config).state).max_iterations ≤
      ((critic_node (strN "1. x") (⟨Node.critic, sW2⟩ : Config).state).iteration_count : Int) :=
  c9_fallback_unreachable (strN "t") 1 (by norm_num) ⟨Node.critic, sW2⟩ reach_sW2 rfl
    (strN "1. x")

/-! ### C4: `approved → feedback empty` fails at a forced approval gate -/

/-- A critic reply with one critique, at the iteration bound: the router is
forced to the gate with outstanding feedback. -/
def sB3 : AgentState := critic_node (strN "1. Add a hook.") sW2

/-- State after the human approves at that forced gate: `Approve` does not
touch `critiques`. -/
def sB4 : AgentState :=
  { sB3 with human_approved := true, approval_attempts := sB3.approval_attempts + 1 }

def cfgB4 : Config := ⟨.terminal, sB4⟩

/-- C4 counterexample: a reachable (terminal) configuration with
`approved = true` and a non-empty feedback list — produced by an `Approve`
verdict at a forced approval gate entered with the bound exhausted and an
outstanding critique.  This refutes the claimed invariant. -/
theorem c4_counterexample :
    Reachable ⟨Node.research, initial_state (strN "t") 1⟩ cfgB4 ∧
    cfgB4.state.human_approved = true ∧ cfgB4.state.critiques ≠ [] := by
  refine ⟨?_, rfl, by decide⟩
  have h3 : Step ⟨Node.critic, sW2⟩ ⟨Node.human_approval, sB3⟩ := by
    have he : (⟨nodeOfRoute (should_continue (critic_node (strN "1. Add a hook.") sW2)),
                critic_node (strN "1. Add a hook.") sW2⟩ : Config) =
        ⟨Node.human_approval, sB3⟩ := by decide
    exact he ▸ Step.critic (strN "1. Add a hook.") sW2
  have h4 : Step ⟨Node.human_approval, sB3⟩ cfgB4 := by
    have he : (⟨nodeOfRoute (human_approval_route sB4), sB4⟩ : Config) = cfgB4 := by
      decide
    exact he ▸ Step.gate .approve sB3 sB4 rfl
  exact Relation.ReflTransGen.tail (Relation.ReflTransGen.tail reach_sW2 h3) h4

/-- C4 amended: `approved = true` does imply the workflow is terminal (both
routers return `END`), and `Approve` preserves the feedback list — so after
a forced-gate approval the terminal state keeps its outstanding critiques
instead of having an empty feedback list. -/
theorem c4_amended (s : AgentState) (h : s.human_approved = true) :
    should_continue s = .END ∧ human_approval_route s = .END ∧
    (human_approval_step .approve s).map AgentState.critiques = some s.critiques := by
  refine ⟨?_, ?_, rfl⟩ <;> simp [should_continue, human_approval_route, h]

/-- Witness for the amended C4 at the concrete approved state `sB4`. -/
theorem c4_witness :
    should_continue sB4 = .END ∧ human_approval_route sB4 = .END ∧
    (human_approval_step .approve sB4).map AgentState.critiques = some sB4.critiques :=
  c4_amended sB4 rfl

/-! ## The FastAPI backend (`src/backend/main.py`) -/

/-- The task status strings used by the backend
(`"pending" | "running" | "awaiting_approval" | "completed" | "error"`). -/
inductive TaskStatus | pending | running | awaiting_approval | completed | error
deriving DecidableEq

/-- An entry of the global `active_tasks` dict (named `Task` in the spec; `ApiTask` here because Lean reserves `Task`).  The bookkeeping fields
`progress`, `current_step`, `created_at`, `completed_at` and `error` are
omitted: no claim reads them. -/
structure ApiTask where
  status : TaskStatus
  request : PyStr
  max_iterations : Int
  state : Option AgentState
  result : Option AgentState
deriving DecidableEq

/-- The `HumanFeedback` pydantic model: `action: str`, `feedback: str = ""`. -/
structure HumanFeedback where
  action : PyStr
  feedback : PyStr := []

/-- The HTTP error responses raised by `submit_human_feedback`:
404 "ApiTask not found" (checked before the per-task body modelled below),
400 "ApiTask state not available", 400 "Feedback text required" (the
`InvalidInput` of the spec's taxonomy), 400 "Invalid action". -/
inductive ApiError | NotFound | StateUnavailable | InvalidInput | InvalidAction
deriving DecidableEq

/-- The body of `POST /api/marketing/{task_id}/human-feedback`
(`submit_human_feedback`, `src/backend/main.py` lines 709–755) for a task
found in the registry.  Python mutates the shared `state` dict in place and
a raised `HTTPException` does not roll those mutations back, so the model
returns the post-call task next to the response: in particular
`approval_attempts` is incremented *before* the action is inspected, and
persists even on the 400 errors.  `reject`/`feedback` do not change
`task.status`. -/
def submit_human_feedback (task : ApiTask) (fb : HumanFeedback) :
    ApiTask × Except ApiError PyStr :=
  match task.state with
  | none => (task, .error .StateUnavailable)
  | some st0 =>
      let st := { st0 with approval_attempts := st0.approval_attempts + 1 }
      if fb.action = strN "approve" then
        let st2 := { st with human_approved := true }
        ({ task with state := some st2, status := .completed, result := some st2 },
         .ok (strN "Post approved successfully"))
      else if fb.action = strN "reject" then
        let st2 := { st with
          human_approved := false,
          critiques := [strN "Human reviewer requested general improvements to the overall post quality and effectiveness."],
          iteration_count := 0 }
        ({ task with state := some st2 },
         .ok (strN "Post rejected - will continue refinement"))
      else if fb.action = strN "feedback" then
        if fb.feedback.isEmpty then
          ({ task with state := some st }, .error .InvalidInput)
        else
          let st2 := { st with
            human_approved := false,
            critiques := [strN "Human feedback: " ++ fb.feedback],
            iteration_count := 0 }
          ({ task with state := some st2 },
           .ok (strN "Feedback received - will continue refinement"))
      else
        ({ task with state := some st }, .error .InvalidAction)

/-- The `MarketingRequest` pydantic model: `request: str`,
`max_iterations: int = 3` — note: no validator constrains
`max_iterations`. -/
structure MarketingRequest where
  request : PyStr
  max_iterations : Int := 3

structure MarketingResponse where
  success : Bool
  task_id : PyStr
  message : PyStr
deriving DecidableEq

/-- `POST /api/marketing/generate` (`generate_marketing_post`,
`src/backend/main.py` lines 684–707): unconditionally registers a fresh
pending task under a fresh uuid (modelled as the parameter `task_id`) and
returns success. -/
def generate_marketing_post (active_tasks : List (PyStr × ApiTask)) (task_id : PyStr)
    (req : MarketingRequest) : List (PyStr × ApiTask) × MarketingResponse :=
  let task : ApiTask := { status := .pending, request := req.request,
                          max_iterations := req.max_iterations,
                          state := none, result := none }
  ((task_id, task) :: active_tasks,
   { success := true, task_id := task_id,
     message := strN "Marketing post generation task created with ID: " ++ task_id })

/-! ### C2: task creation does not validate `maxIterations` -/

/-- C2 amended: `CreateTask` performs no validation at all on
`maxIterations` — for every request (any integer bound, the pydantic
default being 3) it succeeds and registers a fresh pending task. -/
theorem c2_amended (tasks : List (PyStr × ApiTask)) (tid : PyStr)
    (req : MarketingRequest) :
    (generate_marketing_post tasks tid req).2.success = true ∧
    (generate_marketing_post tasks tid req).1.lookup tid =
      some { status := .pending, request := req.request,
             max_iterations := req.max_iterations, state := none, result := none } ∧
    (∀ r : PyStr, ({ request := r } : MarketingRequest).max_iterations = 3) := by
  refine ⟨rfl, ?_, fun r => rfl⟩
  simp [generate_marketing_post, List.lookup]

/-- C2 counterexample: creating a task with `maxIterations = 0` does *not*
fail with `InvalidInput` — it succeeds and the task is registered. -/
theorem c2_counterexample :
    (generate_marketing_post [] (strN "id0")
        { request := strN "t", max_iterations := 0 }).2.success = true ∧
    (generate_marketing_post [] (strN "id0")
        { request := strN "t", max_iterations := 0 }).1.lookup (strN "id0") =
      some { status := .pending, request := strN "t", max_iterations := 0,
             state := none, result := none } := by
  constructor
  · rfl
  · simp [generate_marketing_post, List.lookup]

/-! ### C1: empty feedback is rejected, but only after the counter bump -/

/-- The stored state of a task awaiting approval, used as concrete input
for C1/C3/C5/C6. -/
def stAwait : AgentState :=
  { initial_request := strN "t", research_findings := mock_key_points,
    draft_post := strN "d", critiques := [strN "1. Add a hook."],
    iteration_count := 2, max_iterations := 2, human_approved := false,
    approval_attempts := 0 }

def taskAwait : ApiTask :=
  { status := .awaiting_approval, request := strN "t", max_iterations := 2,
    state := some stAwait, result := none }

/-- C1 counterexample: submitting `Feedback("")` to the concrete awaiting
task is answered with `InvalidInput`, but the workflow state is *not*
untouched — `approval_attempts` has been incremented from 0 to 1. -/
theorem c1_counterexample :
    (submit_human_feedback taskAwait { action := strN "feedback", feedback := [] }).2 =
      Except.error ApiError.InvalidInput ∧
    (submit_human_feedback taskAwait { action := strN "feedback", feedback := [] }).1.state.map
        AgentState.approval_attempts = some 1 ∧
    taskAwait.state.map AgentState.approval_attempts = some 0 := by
  refine ⟨?_, ?_, rfl⟩ <;> rfl

/-- C1 amended: for every task awaiting approval, `Feedback("")` is rejected
with `InvalidInput` (HTTP 400 "Feedback text required") and the feedback
list, approval flag, iteration counter and task status are left unchanged —
but `approvalAttempts` *is* incremented, because the endpoint bumps it
before validating the verdict. -/
theorem c1_amended (task : ApiTask) (st : AgentState)
    (hs : task.state = some st) ( _hw : task.status = .awaiting_approval) :
    (submit_human_feedback task { action := strN "feedback", feedback := [] }).2 =
      Except.error ApiError.InvalidInput ∧
    (submit_human_feedback task { action := strN "feedback", feedback := [] }).1.status =
      task.status ∧
    (submit_human_feedback task { action := strN "feedback", feedback := [] }).1.state =
      some { st with approval_attempts := st.approval_attempts + 1 } := by
  unfold submit_human_feedback
  rw [hs]
  dsimp only
  rw [if_neg (by decide), if_neg (by decide), if_pos rfl, if_pos (by decide)]
  exact ⟨rfl, rfl, rfl⟩

/-- Witness for the amended C1 at the concrete awaiting task. -/
theorem c1_witness :
    (submit_human_feedback taskAwait { action := strN "feedback", feedback := [] }).2 =
      Except.error ApiError.InvalidInput ∧
    (submit_human_feedback taskAwait { action := strN "feedback", feedback := [] }).1.status =
      taskAwait.status ∧
    (submit_human_feedback taskAwait { action := strN "feedback", feedback := [] }).1.state =
      some { stAwait with approval_attempts := stAwait.approval_attempts + 1 } :=
  c1_amended taskAwait stAwait rfl rfl

/-! ### C3: no `InvalidState` check on the feedback endpoint -/

/-- A task that has already completed (state stored, approved once). -/
def stDone : AgentState :=
  { stAwait with human_approved := true, approval_attempts := 1 }

def taskDone : ApiTask :=
  { status := .completed, request := strN "t", max_iterations := 2,
    state := some stDone, result := some stDone }

/-- C3 counterexample: submitting `Approve` to the concrete completed task
does *not* fail with `InvalidState` — it succeeds again and increments
`approval_attempts` from 1 to 2. -/
theorem c3_counterexample :
    (submit_human_feedback taskDone { action := strN "approve", feedback := [] }).2 =
      Except.ok (strN "Post approved successfully") ∧
    (submit_human_feedback taskDone { action := strN "approve", feedback := [] }).1.state.map
        AgentState.approval_attempts = some 2 ∧
    taskDone.state.map AgentState.approval_attempts = some 1 := by
  refine ⟨?_, ?_, rfl⟩ <;> rfl

/-- C3 amended: the endpoint never inspects the task status: submitting
`Approve` to a `Completed` task whose state is stored succeeds again,
incrementing `approvalAttempts` and re-marking the task completed; the only
failure on this path is 400 "Task state not available" when no state is
stored (and 404 for an unknown id, checked before this body). -/
theorem c3_amended (task : ApiTask) (st : AgentState)
    (hs : task.state = some st) ( _hc : task.status = .completed) :
    (submit_human_feedback task { action := strN "approve", feedback := [] }).2 =
      Except.ok (strN "Post approved successfully") ∧
    (submit_human_feedback task { action := strN "approve", feedback := [] }).1.status =
      .completed ∧
    (submit_human_feedback task { action := strN "approve", feedback := [] }).1.state =
      some { st with approval_attempts := st.approval_attempts + 1,
                     human_approved := true } := by
  unfold submit_human_feedback
  rw [hs]
  dsimp only
  rw [if_pos rfl]
  exact ⟨rfl, rfl, rfl⟩

/-- Witness for the amended C3 at the concrete completed task. -/
theorem c3_witness :
    (submit_human_feedback taskDone { action := strN "approve", feedback := [] }).2 =
      Except.ok (strN "Post approved successfully") ∧
    (submit_human_feedback taskDone { action := strN "approve", feedback := [] }).1.status =
      .completed ∧
    (submit_human_feedback taskDone { action := strN "approve", feedback := [] }).1.state =
      some { stDone with approval_attempts := stDone.approval_attempts + 1,
                         human_approved := true } :=
  c3_amended taskDone stDone rfl rfl

/-! ### The async run loop and the WebSocket human-feedback handler -/

/-- The `while not state.get("human_approved")` loop of
`run_marketing_agent_async` (`src/backend/main.py` lines 556–632): each pass
runs `copywriting_node` and `critic_node` (their language-model replies come
from `oracle`, indexed by the pass number), then either returns the state to
await human approval (no critiques, or bound reached) or loops for another
refinement.  `fuel` bounds the recursion; since `iteration_count` strictly
increases and the loop continues only while it is below `max_iterations`,
`max_iterations.toNat + 1` passes are always enough. -/
def agent_loop (oracle : Nat → PyStr × PyStr) (max_iterations : Int) :
    Nat → Nat → AgentState → AgentState
  | _, 0, s => s
  | pass, fuel + 1, s =>
    if s.human_approved then s
    else
      let s1 := copywriting_node (oracle pass).1 s
      let s2 := critic_node (oracle pass).2 s1
      if s2.critiques = [] then s2
      else if (s2.iteration_count : Int) < max_iterations then
        agent_loop oracle max_iterations (pass + 1) fuel s2
      else s2

/-- `run_marketing_agent_async(request, max_iterations, client_id)`: builds
a *fresh* `initial_state` (zeroed counters, empty critiques), runs
`research_node` and then the critique/refine loop, and returns the state at
the first approval-gate entry. -/
def run_marketing_agent_async (oracle : Nat → PyStr × PyStr) (request : PyStr)
    (max_iterations : Int) : AgentState :=
  agent_loop oracle max_iterations 0 (max_iterations.toNat + 1)
    (research_node (initial_state request max_iterations))

/-- The `"human_feedback"` branch of `websocket_endpoint`
(`src/backend/main.py` lines 842–922) for a task found in the registry.
`approve` marks the stored state approved and the task completed (note: no
`approval_attempts` increment on this path).  `reject`/`feedback` record the
verdict on the stored state (iteration reset, critiques replaced — the
`_recorded` binding) but then *resume by re-running the whole agent from a
fresh initial state*, overwriting the stored state with the fresh run's
result.  An unknown action falls through without effect; a `none` state
would raise a `TypeError` in Python and is returned unchanged here. -/
def ws_human_feedback (oracle : Nat → PyStr × PyStr) (task : ApiTask)
    (action fbText : PyStr) : ApiTask :=
  match task.state with
  | none => task
  | some st =>
      if action = strN "approve" then
        let st2 := { st with human_approved := true }
        { task with state := some st2, status := .completed, result := some st2 }
      else if action = strN "reject" ∨ action = strN "feedback" then
        let _recorded := { st with
          human_approved := false,
          critiques :=
            if action = strN "feedback" ∧ fbText ≠ [] then
              [strN "Human feedback: " ++ fbText]
            else
              [strN "Human reviewer requested improvements."],
          iteration_count := 0 }
        let result := run_marketing_agent_async oracle task.request task.max_iterations
        { task with state := some result, status := .awaiting_approval }
      else task

/-- A benign oracle for the resumed runs: some draft, then a critic reply
that strips to empty (no critiques), so the resumed run stops at its first
gate entry. -/
def oracleW : Nat → PyStr × PyStr := fun _ => (strN "d2", strN "")

/-- C5 (code bug): `approvalAttempts` is *not* monotone across a task's
lifetime.  Starting from the awaiting task (`approval_attempts = 0`), an
HTTP `Reject` bumps the stored counter to 1; resuming via the WebSocket
handler then re-runs the agent from a fresh initial state, and the stored
state's counter drops back to 0. -/
theorem c5_bug :
    (submit_human_feedback taskAwait { action := strN "reject", feedback := [] }).1.state.map
        AgentState.approval_attempts = some 1 ∧
    (ws_human_feedback oracleW
        (submit_human_feedback taskAwait { action := strN "reject", feedback := [] }).1
        (strN "reject") []).state.map AgentState.approval_attempts = some 0 := by
  exact ⟨rfl, rfl⟩

/-- C6 (code bug): after `Feedback("shorten it")` the verdict *is* recorded
as the single entry `"Human feedback: shorten it"` with `iteration` reset
to 0 (first two conjuncts, the HTTP endpoint), but the WebSocket resume
re-runs the agent from a fresh state: the state its first Draft step
consumes has empty critiques (and, being at `iteration_count = 0`, the
draft prompt ignores critiques entirely), and the resumed run's stored
state never saw the human's entry. -/
theorem c6_bug :
    (submit_human_feedback taskAwait
        { action := strN "feedback", feedback := strN "shorten it" }).1.state.map
        AgentState.critiques = some [strN "Human feedback: shorten it"] ∧
    (submit_human_feedback taskAwait
        { action := strN "feedback", feedback := strN "shorten it" }).1.state.map
        AgentState.iteration_count = some 0 ∧
    (research_node (initial_state taskAwait.request taskAwait.max_iterations)).critiques = [] ∧
    copywriting_prompt_feedback
      (research_node (initial_state taskAwait.request taskAwait.max_iterations)) = [] ∧
    (ws_human_feedback oracleW taskAwait (strN "feedback")
        (strN "shorten it")).state.map AgentState.critiques = some [] := by
  exact ⟨rfl, rfl, rfl, rfl, rfl⟩
